import Mathlib

/-!
Verification of the mood-scoring engine in `src/core/analyzer.py`
(Instagram_Mood_Picture repository).

The Python module is embedded shallowly:
* Python floats become `ℚ` (every threshold in the source — 6.0, 7.0, 8.0,
  8.5, 0.7, 0.5, 0.6, 0.35, 0.15, 0.10, 0.05, 1.5 — is exactly
  representable, so rational arithmetic is faithful).
* `datetime.date` values are represented by their proleptic-Gregorian
  ordinal (`date.toordinal()`), so `(event_date - today).days` is ordinal
  subtraction; `datetime.time` keeps hour/minute/second fields with the
  lexicographic order Python uses.
* Fallible parsing (`datetime.fromisoformat`, `strptime`) becomes
  `Option`-returning parsers; the `try/except ValueError: continue` in the
  source becomes skipping on `none`.
* The ambient `datetime.now()` read inside `AgendaAnalyzer.analyze_events`
  (source line 149) is modelled by an explicit extra argument `now`, so
  that the dependence of the result on the ambient clock can be stated.
* Presentation-only report fields (`analysis` strings, `summary`,
  `top_moods`, the ISO `timestamp` string — the report stores the
  `current_time` value itself, of which `isoformat()` is an injective
  rendering) are not modelled; no verified property mentions them.
-/

/-- `SignalStrength` enum of the source (line 108). -/
inductive SignalStrength where
  | very_weak
  | weak
  | neutral
  | moderate
  | strong
  | very_strong
deriving DecidableEq, Repr

/-- `MoodCategory` enum of the source (line 118), in definition order. -/
inductive MoodCategory where
  | creative
  | hard_work
  | confident
  | chill
  | energetic
  | melancholy
  | intense
  | pumped
  | tired
deriving DecidableEq, Repr

/-- `mood.value` — the string payload of each `MoodCategory` member. -/
def MoodCategory.value : MoodCategory → String
  | .creative => "creative"
  | .hard_work => "hard_work"
  | .confident => "confident"
  | .chill => "chill"
  | .energetic => "energetic"
  | .melancholy => "melancholy"
  | .intense => "intense"
  | .pumped => "pumped"
  | .tired => "tired"

/-- Iteration order of the `MoodCategory` enum (Python iterates members in
definition order, which is the order `_score_moods` uses to build the dict). -/
def allMoods : List MoodCategory :=
  [.creative, .hard_work, .confident, .chill, .energetic,
   .melancholy, .intense, .pumped, .tired]

/-- `strength_weights` table of `_score_moods` (lines 502-509). -/
def strength_weights : SignalStrength → ℚ
  | .very_weak => -30
  | .weak => -10
  | .neutral => 0
  | .moderate => 5
  | .strong => 10
  | .very_strong => 30

/-! ## MoodAnalyzerConfig keyword lists (lines 32-101) -/

def SPORT_INTENSE : List String :=
  ["crossfit", "compétition", "competition", "hiit", "marathon", "triathlon",
   "match", "rugby", "football", "basket", "boxe"]

def SPORT_MODERATE : List String :=
  ["run", "gym", "yoga", "vélo", "velo", "natation", "fitness", "sport", "musculation",
   "train", "training", "entraînement", "entrainement", "pilates"]

def WORK_CREATIVE : List String :=
  ["design", "dev", "développement", "developpement", "art", "création", "creation",
   "creative", "projet perso", "coding", "dessin", "photo", "musique",
   "machine", "conception", "algo", "algorithmique", "programmation"]

def WORK_FOCUS_HIGH : List String :=
  ["exam", "examen", "partiel", "soutenance", "certification", "concours", "final",
   "controle", "contrôle"]

def WORK_FOCUS_NORMAL : List String :=
  ["réunion", "reunion", "présentation", "presentation",
   "projet", "étude", "etude", "travail", "meeting", "rendu", "deadline",
   "cm", "td", "cours magistral", "travaux dirigés", "tp", "travaux pratiques",
   "comptabilité", "comptabilite", "compta", "gestion", "finance", "eco-gestion",
   "eco gestion", "miage", "business english", "english",
   "système", "systeme", "strat", "stratégie", "strategie"]

def SOCIAL_ACTIVE : List String :=
  ["fête", "fete", "soirée", "soiree", "concert", "bar", "club", "anniv",
   "anniversaire", "party", "festival", "sortie", "boîte", "boite"]

def SOCIAL_CALM : List String :=
  ["resto", "restaurant", "café", "cafe", "apéro", "apero", "dîner", "diner",
   "déjeuner", "dejeuner", "brunch", "repas", "bouffe"]

def SLEEP_CRITICAL : ℚ := 6
def SLEEP_POOR : ℚ := 7
def SLEEP_INADEQUATE : ℚ := 8
def SLEEP_OPTIMAL_MIN : ℚ := 17/2

def WEATHER_RAIN : List String :=
  ["orage", "storm", "tempête", "tempete", "pluie", "rain", "pluvieux"]
def WEATHER_CLOUDY : List String :=
  ["grisaille", "gris", "overcast", "nuageux", "cloudy"]
def WEATHER_SUNNY : List String :=
  ["soleil", "sunny", "ensoleillé", "ensolleile", "clear"]

def ENERGY_HIGH : ℚ := 7/10

/-! ## String helpers: Python `str.lower()` and `k in s` -/

/-- Python `str.lower()` on the character range relevant to this module:
ASCII letters plus the accented Latin letters appearing in the configured
French keywords. -/
def pyLowerChar (c : Char) : Char :=
  if 'A' ≤ c ∧ c ≤ 'Z' then Char.ofNat (c.toNat + 32)
  else if c = 'É' then 'é'
  else if c = 'È' then 'è'
  else if c = 'Ê' then 'ê'
  else if c = 'À' then 'à'
  else if c = 'Â' then 'â'
  else if c = 'Î' then 'î'
  else if c = 'Ï' then 'ï'
  else if c = 'Ô' then 'ô'
  else if c = 'Û' then 'û'
  else if c = 'Ç' then 'ç'
  else c

def pyLower (s : String) : String := String.mk (s.data.map pyLowerChar)

/-- `needle` is a leading segment of `hay`. -/
def leadsList : List Char → List Char → Bool
  | [], _ => true
  | _ :: _, [] => false
  | a :: as, b :: bs => a = b && leadsList as bs

/-- Substring containment on character lists (Python `needle in hay`). -/
def containsList (needle : List Char) : List Char → Bool
  | [] => needle.isEmpty
  | b :: bs => leadsList needle (b :: bs) || containsList needle bs

/-- Python `needle in hay` for strings. -/
def strContains (hay needle : String) : Bool := containsList needle.data hay.data

/-- Python `any(k in summary for k in keywords)`. -/
def matchesAny (summary : String) (keywords : List String) : Bool :=
  keywords.any (fun k => strContains summary k)

/-! ## Dates and times -/

/-- `datetime.time`: hour/minute/second (microseconds are never produced by
the parsers modelled here). -/
structure TimeOfDay where
  hour : ℕ
  minute : ℕ
  second : ℕ
deriving DecidableEq, Repr

/-- Python `time` comparison (lexicographic). -/
def timeLE (a b : TimeOfDay) : Bool :=
  decide (a.hour < b.hour ∨ (a.hour = b.hour ∧
    (a.minute < b.minute ∨ (a.minute = b.minute ∧ a.second ≤ b.second))))

def isLeap (y : ℕ) : Bool := (y % 4 == 0 && y % 100 != 0) || y % 400 == 0

def daysInMonth (y m : ℕ) : ℕ :=
  if m = 2 then (if isLeap y then 29 else 28)
  else if m = 4 ∨ m = 6 ∨ m = 9 ∨ m = 11 then 30
  else 31

/-- `date.toordinal()`: proleptic-Gregorian ordinal, `0001-01-01` is day 1.
Computed by the standard civil-calendar formula. -/
def toordinal (y m d : ℕ) : ℤ :=
  let y' := if m ≤ 2 then y - 1 else y
  let era := y' / 400
  let yoe := y' % 400
  let mp := (m + 9) % 12
  let doy := (153 * mp + 2) / 5 + (d - 1)
  let doe := yoe * 365 + yoe / 4 - yoe / 100 + doy
  ((era * 146097 + doe : ℕ) : ℤ) - 305

/-- A Python `datetime` value: calendar date (as ordinal) plus time of day. -/
structure PyDateTime where
  date : ℤ
  time : TimeOfDay
deriving DecidableEq, Repr

def PyDateTime.hour (t : PyDateTime) : ℕ := t.time.hour

/-- `datetime.weekday()`: 0 = Monday … 6 = Sunday (`0001-01-01` is a Monday). -/
def PyDateTime.weekday (t : PyDateTime) : ℕ := ((t.date - 1) % 7).toNat

def digitVal (c : Char) : ℕ := c.toNat - 48

def validDate (y m d : ℕ) : Bool :=
  decide (1 ≤ y ∧ y ≤ 9999 ∧ 1 ≤ m ∧ m ≤ 12 ∧ 1 ≤ d ∧ d ≤ daysInMonth y m)

/-- Parse a zero-padded `YYYY-MM-DD` character sequence with full calendar
validation, as `datetime.strptime(s, "%Y-%m-%d")` does (a `ValueError`
becomes `none`). -/
def parseYMD (cs : List Char) : Option ℤ :=
  match cs with
  | [y1, y2, y3, y4, '-', m1, m2, '-', d1, d2] =>
    if ([y1, y2, y3, y4, m1, m2, d1, d2].all Char.isDigit) then
      let y := 1000 * digitVal y1 + 100 * digitVal y2 + 10 * digitVal y3 + digitVal y4
      let m := 10 * digitVal m1 + digitVal m2
      let d := 10 * digitVal d1 + digitVal d2
      if validDate y m d then some (toordinal y m d) else none
    else none
  | _ => none

def parseDateOnly (s : String) : Option ℤ := parseYMD s.data

def validTime (h m s : ℕ) : Bool := decide (h ≤ 23 ∧ m ≤ 59 ∧ s ≤ 59)

def validOffset (sg o1 o2 o3 o4 : Char) : Bool :=
  (sg = '+' || sg = '-') && ([o1, o2, o3, o4].all Char.isDigit) &&
    validTime (10 * digitVal o1 + digitVal o2) (10 * digitVal o3 + digitVal o4) 0

/-- Parse the time-of-day tail of an ISO-8601 string: `HH:MM`, optionally
`:SS`, optionally followed by a `±HH:MM` UTC offset.  As in the source
(which calls `event_dt.time()` on the parsed value), the offset is
validated but the local clock components are returned unchanged. -/
def parseTimePart (cs : List Char) : Option TimeOfDay :=
  match cs with
  | [h1, h2, ':', m1, m2] =>
    if ([h1, h2, m1, m2].all Char.isDigit) then
      let h := 10 * digitVal h1 + digitVal h2
      let m := 10 * digitVal m1 + digitVal m2
      if validTime h m 0 then some ⟨h, m, 0⟩ else none
    else none
  | [h1, h2, ':', m1, m2, ':', s1, s2] =>
    if ([h1, h2, m1, m2, s1, s2].all Char.isDigit) then
      let h := 10 * digitVal h1 + digitVal h2
      let m := 10 * digitVal m1 + digitVal m2
      let s := 10 * digitVal s1 + digitVal s2
      if validTime h m s then some ⟨h, m, s⟩ else none
    else none
  | [h1, h2, ':', m1, m2, sg, o1, o2, ':', o3, o4] =>
    if ([h1, h2, m1, m2].all Char.isDigit) && validOffset sg o1 o2 o3 o4 then
      let h := 10 * digitVal h1 + digitVal h2
      let m := 10 * digitVal m1 + digitVal m2
      if validTime h m 0 then some ⟨h, m, 0⟩ else none
    else none
  | [h1, h2, ':', m1, m2, ':', s1, s2, sg, o1, o2, ':', o3, o4] =>
    if ([h1, h2, m1, m2, s1, s2].all Char.isDigit) && validOffset sg o1 o2 o3 o4 then
      let h := 10 * digitVal h1 + digitVal h2
      let m := 10 * digitVal m1 + digitVal m2
      let s := 10 * digitVal s1 + digitVal s2
      if validTime h m s then some ⟨h, m, s⟩ else none
    else none
  | _ => none

/-- `datetime.fromisoformat`: `YYYY-MM-DD`, optionally a single separator
character and a time part.  Returns the local date ordinal and time of day
(`event_dt.date()` / `event_dt.time()` in the source). -/
def parseIsoDateTime (s : String) : Option (ℤ × TimeOfDay) :=
  match parseYMD (s.data.take 10) with
  | none => none
  | some ord =>
    match s.data.drop 10 with
    | [] => some (ord, ⟨0, 0, 0⟩)
    | _sep :: rest =>
      match parseTimePart rest with
      | none => none
      | some t => some (ord, t)

/-- `s.replace("Z", "+00:00")` (source line 164). -/
def pyReplaceZ (s : String) : String :=
  String.mk (s.data.flatMap (fun c => if c = 'Z' then ['+', '0', '0', ':', '0', '0'] else [c]))

/-! ## Calendar events -/

/-- The `start` dict of a calendar event; either key may be present
(`dateTime` is checked first, as in the source). -/
structure EventStart where
  dateTime : Option String
  date : Option String
deriving DecidableEq, Repr

structure CalendarEvent where
  summary : String
  start : EventStart
deriving DecidableEq, Repr

/-- Lines 157-177 of the source: parse the start field, yielding the event
date and (for `dateTime` entries) the event time; `none` models the
`continue` taken on a missing key or a `ValueError`. -/
def parseStart (st : EventStart) : Option (ℤ × Option TimeOfDay) :=
  match st.dateTime with
  | some s => (parseIsoDateTime (pyReplaceZ s)).map (fun p => (p.1, some p.2))
  | none =>
    match st.date with
    | some s => (parseDateOnly s).map (fun d => (d, none))
    | none => none

/-! ## SleepAnalyzer -/

structure SleepReport where
  sleep_hours : ℚ
  quality : String
  veto : Bool
  mood_signals : List (MoodCategory × SignalStrength)
deriving DecidableEq, Repr

/-- `SleepAnalyzer.analyze_sleep` (lines 249-294).  `bedtime`, `wake_time`
and `execution_type` are accepted and ignored, as in the source. -/
def analyze_sleep (sleep_hours : ℚ) (bedtime wake_time execution_type : String) :
    SleepReport :=
  if sleep_hours ≤ 0 then
    ⟨sleep_hours, "NO_DATA", false, [(.chill, .moderate)]⟩
  else if sleep_hours < SLEEP_CRITICAL then
    ⟨sleep_hours, "CRITICAL_VETO", true, [(.tired, .very_strong)]⟩
  else if sleep_hours < SLEEP_POOR then
    ⟨sleep_hours, "POOR", false, [(.tired, .strong), (.intense, .moderate)]⟩
  else if sleep_hours < SLEEP_INADEQUATE then
    ⟨sleep_hours, "INADEQUATE", false, [(.tired, .moderate)]⟩
  else if SLEEP_OPTIMAL_MIN ≤ sleep_hours then
    ⟨sleep_hours, "OPTIMAL", false, [(.energetic, .strong), (.confident, .strong)]⟩
  else
    ⟨sleep_hours, "OK", false, [(.chill, .moderate)]⟩

/-! ## WeatherAnalyzer -/

structure WeatherReport where
  weather : String
  temperature : Option ℚ
  mood_signals : List (MoodCategory × SignalStrength)
deriving DecidableEq, Repr

/-- `WeatherAnalyzer.analyze_weather` (lines 300-331). -/
def analyze_weather (weather_summary : String) (temperature : Option ℚ)
    (execution_type : String) : WeatherReport :=
  let weather_lower := pyLower weather_summary
  let is_rain := matchesAny weather_lower WEATHER_RAIN
  let is_cloudy := matchesAny weather_lower WEATHER_CLOUDY
  let is_sunny := matchesAny weather_lower WEATHER_SUNNY
  let mood_signals :=
    if is_rain then
      if execution_type = "MATIN" then
        [(MoodCategory.melancholy, SignalStrength.very_strong),
         (MoodCategory.intense, SignalStrength.strong)]
      else
        [(MoodCategory.melancholy, SignalStrength.moderate),
         (MoodCategory.chill, SignalStrength.moderate)]
    else if is_cloudy then
      [(MoodCategory.melancholy, SignalStrength.moderate)]
    else if is_sunny then
      [(MoodCategory.confident, SignalStrength.strong),
       (MoodCategory.pumped, SignalStrength.moderate)]
    else []
  ⟨weather_summary, temperature, mood_signals⟩

/-! ## MusicAnalyzer -/

structure MusicReport where
  valence : ℚ
  energy : ℚ
  tempo : ℤ
  danceability : ℚ
  vibe : String
  mood_signals : List (MoodCategory × SignalStrength)
deriving DecidableEq, Repr

/-- `MusicAnalyzer.analyze_music` (lines 337-373). -/
def analyze_music (valence energy : ℚ) (tempo : ℤ) (danceability : ℚ) : MusicReport :=
  let base :=
    if energy > ENERGY_HIGH then
      ([(MoodCategory.pumped, SignalStrength.strong),
        (MoodCategory.energetic, SignalStrength.strong)], "BOOST")
    else if energy > 1/2 then
      ([(MoodCategory.energetic, SignalStrength.moderate)], "VIBE")
    else
      ([(MoodCategory.chill, SignalStrength.strong)], "CHILL")
  let mood_signals :=
    base.1 ++
      (if valence > 3/5 then [(MoodCategory.confident, SignalStrength.moderate)] else []) ++
      (if danceability > 7/10 then [(MoodCategory.creative, SignalStrength.moderate)] else [])
  ⟨valence, energy, tempo, danceability, base.2, mood_signals⟩

/-! ## TimeAnalyzer -/

structure TimeReport where
  hour : ℕ
  day : String
  mood_signals : List (MoodCategory × SignalStrength)
deriving DecidableEq, Repr

/-- `TimeAnalyzer.analyze_time` (lines 379-410). -/
def analyze_time (hour weekday : ℕ) (execution_type : String) : TimeReport :=
  let days := ["Monday", "Tuesday", "Wednesday", "Thursday", "Friday", "Saturday", "Sunday"]
  let day_name := if weekday < 7 then days.getD weekday "Unknown" else "Unknown"
  let mood_signals :=
    if weekday = 0 then
      [(MoodCategory.energetic, SignalStrength.strong),
       (MoodCategory.pumped, SignalStrength.moderate)]
    else if weekday = 4 then
      [(MoodCategory.tired, SignalStrength.moderate),
       (MoodCategory.chill, SignalStrength.strong)]
    else if weekday = 5 ∨ weekday = 6 then
      [(MoodCategory.chill, SignalStrength.strong)]
    else []
  ⟨hour, day_name, mood_signals⟩

/-! ## AgendaAnalyzer -/

structure AgendaReport where
  total_pressure : ℚ
  event_count : ℕ
  today_events : List String
  upcoming_stress : List String
  mood_signals : List (MoodCategory × SignalStrength)
deriving DecidableEq, Repr

/-- The mutable loop state of `analyze_events` (the four accumulators
declared on lines 144-147). -/
structure AgendaState where
  today_events : List String
  upcoming_stress : List String
  mood_signals : List (MoodCategory × SignalStrength)
  total_pressure : ℚ
deriving DecidableEq, Repr

/-- The classification chain for a still-upcoming event of today
(lines 201-232): signals appended and pressure added, branch by branch. -/
def classifyToday (summary : String) : List (MoodCategory × SignalStrength) × ℚ :=
  if matchesAny summary SPORT_INTENSE then
    ([(MoodCategory.pumped, SignalStrength.very_strong)], 2)
  else if matchesAny summary SPORT_MODERATE then
    ([(MoodCategory.energetic, SignalStrength.strong)], 1)
  else if matchesAny summary WORK_CREATIVE then
    ([(MoodCategory.creative, SignalStrength.strong)], 1)
  else if matchesAny summary WORK_FOCUS_HIGH then
    ([(MoodCategory.intense, SignalStrength.very_strong),
      (MoodCategory.hard_work, SignalStrength.strong)], 4)
  else if matchesAny summary WORK_FOCUS_NORMAL then
    ([(MoodCategory.hard_work, SignalStrength.moderate)], 1/2)
  else if matchesAny summary SOCIAL_ACTIVE then
    ([(MoodCategory.confident, SignalStrength.strong),
      (MoodCategory.energetic, SignalStrength.moderate)], 1)
  else if matchesAny summary SOCIAL_CALM then
    ([(MoodCategory.chill, SignalStrength.strong)], 1/2)
  else
    ([(MoodCategory.confident, SignalStrength.moderate)], 1/2)

/-- One iteration of the event loop of `analyze_events` (lines 153-234).
`now` is the value of the `datetime.now()` read on line 149. -/
def processEvent (now : PyDateTime) (st : AgendaState) (event : CalendarEvent) :
    AgendaState :=
  let summary := pyLower event.summary
  match parseStart event.start with
  | none => st
  | some (event_date, event_time) =>
    let days_diff : ℤ := event_date - now.date
    if 0 < days_diff ∧ days_diff ≤ 2 then
      if matchesAny summary WORK_FOCUS_HIGH then
        { st with
          upcoming_stress :=
            st.upcoming_stress ++ [summary ++ " (in " ++ toString days_diff ++ "d)"],
          mood_signals := st.mood_signals ++
            [(MoodCategory.hard_work, SignalStrength.strong),
             (MoodCategory.intense, SignalStrength.moderate)] }
      else st
    else if event_date ≠ now.date then st
    else
      let is_past := match event_time with
        | some t => timeLE t now.time
        | none => false
      if is_past then
        if matchesAny summary WORK_FOCUS_HIGH then
          { st with
            mood_signals := st.mood_signals ++
              [(MoodCategory.tired, SignalStrength.very_strong)],
            today_events := st.today_events ++ ["[DONE] " ++ summary.take 30] }
        else st
      else
        let c := classifyToday summary
        { st with
          mood_signals := st.mood_signals ++ c.1,
          total_pressure := st.total_pressure + c.2,
          today_events := st.today_events ++ [summary.take 30] }

/-- `AgendaAnalyzer.analyze_events` (lines 138-243).  As in the source,
`current_hour` is accepted but never read; the date filtering uses the
ambient clock `now` (the `datetime.now()` of line 149). -/
def analyze_events (events : List CalendarEvent) (current_hour : ℕ)
    (now : PyDateTime) : AgendaReport :=
  let final := events.foldl (processEvent now) ⟨[], [], [], 0⟩
  { total_pressure := final.total_pressure,
    event_count := final.today_events.length,
    today_events := final.today_events.take 5,
    upcoming_stress := final.upcoming_stress,
    mood_signals := final.mood_signals }

/-! ## MoodDataAnalyzer -/

/-- The `source_weights` dict built on lines 460-466 from the
`MoodAnalyzerConfig` constants; it does not depend on `execution_type`. -/
def source_weights : List (String × ℚ) :=
  [("agenda", 7/20), ("sleep", 7/20), ("weather", 3/20), ("music", 1/10), ("time", 1/20)]

/-- Python `dict.get(key, default)` on an association list. -/
def lookupD (l : List (String × ℚ)) (k : String) (d : ℚ) : ℚ :=
  match l with
  | [] => d
  | (a, b) :: t => if a = k then b else lookupD t k d

/-- The per-signal amount added on line 514:
`strength_weights[strength] * source_weights.get(source, 1.0)`. -/
def contribution (w : List (String × ℚ)) (sig : MoodCategory × SignalStrength × String) : ℚ :=
  strength_weights sig.2.1 * lookupD w sig.2.2 1

/-- The accumulation loop of `_score_moods` (lines 511-514), started from `m`. -/
def accumulateFrom (w : List (String × ℚ)) (m : MoodCategory → ℚ)
    (signals : List (MoodCategory × SignalStrength × String)) : MoodCategory → ℚ :=
  signals.foldl
    (fun acc sig => Function.update acc sig.1 (acc sig.1 + contribution w sig)) m

/-- `min(mood_scores.values()) if mood_scores else 0.0` (line 517). -/
def minScore (m : MoodCategory → ℚ) : ℚ :=
  match allMoods.map m with
  | [] => 0
  | v :: vs => vs.foldl min v

/-- `max(mood_scores.values()) if mood_scores else 100.0` (line 524). -/
def maxScore (m : MoodCategory → ℚ) : ℚ :=
  match allMoods.map m with
  | [] => 100
  | v :: vs => vs.foldl max v

/-- The normalization step of `_score_moods` (lines 516-520): subtract the
minimum from every category when it is negative, otherwise leave the map
unchanged. -/
def normalizeScores (m : MoodCategory → ℚ) : MoodCategory → ℚ :=
  if minScore m < 0 then fun c => m c - minScore m else m

/-- `MoodDataAnalyzer._score_moods` (lines 492-528). -/
def score_moods (signals : List (MoodCategory × SignalStrength × String))
    (w : List (String × ℚ)) (veto_sleep : Bool) : MoodCategory → ℚ :=
  let m := accumulateFrom w (fun _ => 0) signals
  let n := normalizeScores m
  if veto_sleep then Function.update n .tired (maxScore n * (3/2)) else n

/-- The merged, source-tagged signal list built on lines 445-457. -/
def all_signals (calendar_events : List CalendarEvent) (sleep_hours : ℚ)
    (bedtime wake_time weather : String) (temperature : Option ℚ)
    (valence energy : ℚ) (tempo : ℤ) (danceability : ℚ)
    (current_time : PyDateTime) (execution_type : String) (now : PyDateTime) :
    List (MoodCategory × SignalStrength × String) :=
  (analyze_events calendar_events current_time.hour now).mood_signals.map
      (fun s => (s.1, s.2, "agenda")) ++
    (analyze_sleep sleep_hours bedtime wake_time execution_type).mood_signals.map
      (fun s => (s.1, s.2, "sleep")) ++
    (analyze_weather weather temperature execution_type).mood_signals.map
      (fun s => (s.1, s.2, "weather")) ++
    (analyze_music valence energy tempo danceability).mood_signals.map
      (fun s => (s.1, s.2, "music")) ++
    (analyze_time current_time.hour current_time.weekday execution_type).mood_signals.map
      (fun s => (s.1, s.2, "time"))

structure AnalysisReport where
  timestamp : PyDateTime
  execution_type : String
  source_weights : List (String × ℚ)
  agenda : AgendaReport
  sleep : SleepReport
  weather : WeatherReport
  music : MusicReport
  time : TimeReport
  mood_scores : List (String × ℚ)
deriving DecidableEq, Repr

/-- `MoodDataAnalyzer.analyze` (lines 427-490).  The trailing `now`
argument is the ambient `datetime.now()` consulted inside
`analyze_events`; every other argument is a declared parameter of the
Python method. -/
def analyze (calendar_events : List CalendarEvent) (sleep_hours : ℚ)
    (bedtime wake_time weather : String) (temperature : Option ℚ)
    (valence energy : ℚ) (tempo : ℤ) (danceability : ℚ)
    (current_time : PyDateTime) (execution_type : String) (now : PyDateTime) :
    AnalysisReport :=
  let agenda_analysis := analyze_events calendar_events current_time.hour now
  let sleep_analysis := analyze_sleep sleep_hours bedtime wake_time execution_type
  let weather_analysis := analyze_weather weather temperature execution_type
  let music_analysis := analyze_music valence energy tempo danceability
  let time_analysis := analyze_time current_time.hour current_time.weekday execution_type
  let scores := score_moods
    (all_signals calendar_events sleep_hours bedtime wake_time weather temperature
      valence energy tempo danceability current_time execution_type now)
    source_weights sleep_analysis.veto
  { timestamp := current_time,
    execution_type := execution_type,
    source_weights := source_weights,
    agenda := agenda_analysis,
    sleep := sleep_analysis,
    weather := weather_analysis,
    music := music_analysis,
    time := time_analysis,
    mood_scores := allMoods.map (fun c => (c.value, scores c)) }

/-! ## Helper lemmas -/

theorem lookup_mood_scores (f : MoodCategory → ℚ) (c : MoodCategory) :
    lookupD (allMoods.map (fun m => (m.value, f m))) c.value 0 = f c := by
  cases c <;> rfl

theorem foldl_min_le_init (l : List ℚ) : ∀ a : ℚ, l.foldl min a ≤ a := by
  induction l with
  | nil => intro a; exact le_refl a
  | cons x t ih =>
    intro a
    calc (x :: t).foldl min a = t.foldl min (min a x) := rfl
    _ ≤ min a x := ih (min a x)
    _ ≤ a := min_le_left a x

theorem foldl_min_le_mem (l : List ℚ) : ∀ (a x : ℚ), x ∈ l → l.foldl min a ≤ x := by
  induction l with
  | nil => intro a x hx; cases hx
  | cons y t ih =>
    intro a x hx
    rcases List.mem_cons.mp hx with rfl | hx
    · calc (x :: t).foldl min a = t.foldl min (min a x) := rfl
      _ ≤ min a x := foldl_min_le_init t (min a x)
      _ ≤ x := min_le_right a x
    · exact ih (min a y) x hx

theorem init_le_foldl_max (l : List ℚ) : ∀ a : ℚ, a ≤ l.foldl max a := by
  induction l with
  | nil => intro a; exact le_refl a
  | cons x t ih =>
    intro a
    calc a ≤ max a x := le_max_left a x
    _ ≤ t.foldl max (max a x) := ih (max a x)

theorem mem_le_foldl_max (l : List ℚ) : ∀ (a x : ℚ), x ∈ l → x ≤ l.foldl max a := by
  induction l with
  | nil => intro a x hx; cases hx
  | cons y t ih =>
    intro a x hx
    rcases List.mem_cons.mp hx with rfl | hx
    · calc x ≤ max a x := le_max_right a x
      _ ≤ t.foldl max (max a x) := init_le_foldl_max t (max a x)
    · exact ih (max a y) x hx

theorem minScore_le (f : MoodCategory → ℚ) (c : MoodCategory) : minScore f ≤ f c := by
  have hm : minScore f =
      ((allMoods.map f).tail).foldl min (f .creative) := rfl
  rw [hm]
  cases c
  case creative => exact foldl_min_le_init _ _
  all_goals exact foldl_min_le_mem _ _ _ (by simp [allMoods])

theorem le_maxScore (f : MoodCategory → ℚ) (c : MoodCategory) : f c ≤ maxScore f := by
  have hm : maxScore f =
      ((allMoods.map f).tail).foldl max (f .creative) := rfl
  rw [hm]
  cases c
  case creative => exact init_le_foldl_max _ _
  all_goals exact mem_le_foldl_max _ _ _ (by simp [allMoods])

theorem normalizeScores_eq (f : MoodCategory → ℚ) (c : MoodCategory) :
    normalizeScores f c = f c - min (minScore f) 0 := by
  unfold normalizeScores
  split_ifs with h
  · rw [min_eq_left h.le]
  · push_neg at h
    rw [min_eq_right h]
    ring

theorem normalizeScores_nonneg (f : MoodCategory → ℚ) (c : MoodCategory) :
    0 ≤ normalizeScores f c := by
  rw [normalizeScores_eq]
  have h1 : min (minScore f) 0 ≤ minScore f := min_le_left _ _
  have h2 : minScore f ≤ f c := minScore_le f c
  linarith

theorem normalizeScores_ge (f : MoodCategory → ℚ) (c : MoodCategory) :
    f c ≤ normalizeScores f c := by
  rw [normalizeScores_eq]
  have h1 : min (minScore f) 0 ≤ 0 := min_le_right _ _
  linarith

/-! ## C4: sleep band classification -/

/-- The sleep band table exactly as the spec writes it (§4.2), transcribed
row by row as a cascade, to be compared with the source's `analyze_sleep`. -/
def specSleepBands (h : ℚ) : String × Bool × List (MoodCategory × SignalStrength) :=
  if h ≤ 0 then ("NO_DATA", false, [(.chill, .moderate)])
  else if h < 6 then ("CRITICAL_VETO", true, [(.tired, .very_strong)])
  else if h < 7 then ("POOR", false, [(.tired, .strong), (.intense, .moderate)])
  else if h < 8 then ("INADEQUATE", false, [(.tired, .moderate)])
  else if h < 17/2 then ("OK", false, [(.chill, .moderate)])
  else ("OPTIMAL", false, [(.energetic, .strong), (.confident, .strong)])

/-- C4.  `SleepAnalyzer.analyze_sleep` returns exactly the band of the
spec's table for every `sleep_hours` value, and the veto flag is set
exactly in the CRITICAL_VETO band `0 < h < 6`. -/
theorem analyze_sleep_matches_spec_bands (h : ℚ) (b w e : String) :
    ((analyze_sleep h b w e).quality, (analyze_sleep h b w e).veto,
      (analyze_sleep h b w e).mood_signals) = specSleepBands h ∧
    (analyze_sleep h b w e).sleep_hours = h ∧
    ((analyze_sleep h b w e).veto = true ↔ (0 < h ∧ h < 6)) := by
  refine ⟨?_, ?_, ?_⟩
  · unfold analyze_sleep specSleepBands SLEEP_CRITICAL SLEEP_POOR SLEEP_INADEQUATE
      SLEEP_OPTIMAL_MIN
    split_ifs <;> first | rfl | (exfalso; push_neg at *; linarith)
  · unfold analyze_sleep
    split_ifs <;> rfl
  · unfold analyze_sleep SLEEP_CRITICAL SLEEP_POOR SLEEP_INADEQUATE SLEEP_OPTIMAL_MIN
    split_ifs with h1 h2 <;>
      simp only [Bool.true_eq_false, false_iff, true_iff] <;>
      first
        | exact ⟨by linarith, by linarith⟩
        | (push_neg; intro h0; linarith)

/-! ## C7: normalization contract and monotonicity -/

/-- C7.  The aggregator's normalization step subtracts
`min(accumulator.values())` from every category exactly when that minimum
is negative (equivalently: it subtracts `min(m, 0)` uniformly), and this
uniform shift preserves both the relative order of any two categories and
their pairwise score differences. -/
theorem normalize_contract_and_monotone (f : MoodCategory → ℚ) (c c' : MoodCategory) :
    normalizeScores f c = f c - min (minScore f) 0 ∧
    (normalizeScores f c ≤ normalizeScores f c' ↔ f c ≤ f c') ∧
    (normalizeScores f c < normalizeScores f c' ↔ f c < f c') ∧
    normalizeScores f c - normalizeScores f c' = f c - f c' := by
  refine ⟨normalizeScores_eq f c, ?_, ?_, ?_⟩
  · rw [normalizeScores_eq f c, normalizeScores_eq f c']
    constructor <;> intro h <;> linarith
  · rw [normalizeScores_eq f c, normalizeScores_eq f c']
    constructor <;> intro h <;> linarith
  · rw [normalizeScores_eq f c, normalizeScores_eq f c']
    ring

/-! ## Accumulator lemmas -/

theorem accumulateFrom_nil (w : List (String × ℚ)) (m : MoodCategory → ℚ) :
    accumulateFrom w m [] = m := rfl

theorem accumulateFrom_cons (w : List (String × ℚ)) (m : MoodCategory → ℚ)
    (x : MoodCategory × SignalStrength × String)
    (l : List (MoodCategory × SignalStrength × String)) :
    accumulateFrom w m (x :: l) =
      accumulateFrom w (Function.update m x.1 (m x.1 + contribution w x)) l := rfl

theorem accumulateFrom_mono (w : List (String × ℚ))
    (l : List (MoodCategory × SignalStrength × String))
    (hl : ∀ s ∈ l, 0 ≤ contribution w s) :
    ∀ (m : MoodCategory → ℚ) (c : MoodCategory), m c ≤ accumulateFrom w m l c := by
  induction l with
  | nil => intro m c; exact le_refl _
  | cons x t ih =>
    intro m c
    rw [accumulateFrom_cons]
    have hx : 0 ≤ contribution w x := hl x (List.mem_cons_self x t)
    have ht : ∀ s ∈ t, 0 ≤ contribution w s := fun s hs => hl s (List.mem_cons_of_mem x hs)
    have h1 : m c ≤ Function.update m x.1 (m x.1 + contribution w x) c := by
      by_cases hc : c = x.1
      · subst hc; rw [Function.update_same]; linarith
      · rw [Function.update_noteq hc]
    exact le_trans h1 (ih ht _ c)

theorem accumulateFrom_nonneg (w : List (String × ℚ))
    (l : List (MoodCategory × SignalStrength × String))
    (hl : ∀ s ∈ l, 0 ≤ contribution w s)
    (m : MoodCategory → ℚ) (hm : ∀ c, 0 ≤ m c) (c : MoodCategory) :
    0 ≤ accumulateFrom w m l c :=
  le_trans (hm c) (accumulateFrom_mono w l hl m c)

theorem contribution_le_accumulateFrom (w : List (String × ℚ))
    (l : List (MoodCategory × SignalStrength × String))
    (sig : MoodCategory × SignalStrength × String) :
    ∀ (m : MoodCategory → ℚ), sig ∈ l → (∀ s ∈ l, 0 ≤ contribution w s) →
      (∀ c, 0 ≤ m c) → contribution w sig ≤ accumulateFrom w m l sig.1 := by
  induction l with
  | nil => intro m hmem; cases hmem
  | cons x t ih =>
    intro m hmem hl hm
    rcases List.mem_cons.mp hmem with rfl | hmem
    · rw [accumulateFrom_cons]
      have h1 : contribution w sig ≤
          Function.update m sig.1 (m sig.1 + contribution w sig) sig.1 := by
        rw [Function.update_same]
        have := hm sig.1
        linarith
      refine le_trans h1 (accumulateFrom_mono w t ?_ _ sig.1)
      exact fun s hs => hl s (List.mem_cons_of_mem _ hs)
    · rw [accumulateFrom_cons]
      refine ih _ hmem (fun s hs => hl s (List.mem_cons_of_mem _ hs)) ?_
      intro c
      by_cases hc : c = x.1
      · subst hc
        rw [Function.update_same]
        have h1 := hm x.1
        have h2 := hl x (List.mem_cons_self x t)
        linarith
      · rw [Function.update_noteq hc]
        exact hm c

/-- Every keyword weight in the aggregator's table, as well as the
`dict.get` default `1.0`, is nonnegative. -/
theorem lookupD_source_weights_nonneg (s : String) : 0 ≤ lookupD source_weights s 1 := by
  simp only [source_weights, lookupD]
  split_ifs <;> norm_num

/-! ## Emitted signal strengths -/

/-- The strengths the analyzers actually emit: `MODERATE`, `STRONG` or
`VERY_STRONG`. -/
def okStrength (s : SignalStrength) : Prop :=
  s = .moderate ∨ s = .strong ∨ s = .very_strong

instance (s : SignalStrength) : Decidable (okStrength s) := by
  unfold okStrength; infer_instance

theorem okStrength_nonneg (s : SignalStrength) (hs : okStrength s) :
    0 ≤ strength_weights s := by
  rcases hs with rfl | rfl | rfl <;> norm_num [strength_weights]

theorem ok_of_list (l : List (MoodCategory × SignalStrength))
    (hl : (l.all fun s => decide (okStrength s.2)) = true) :
    ∀ s ∈ l, okStrength s.2 := by
  intro s hs
  exact of_decide_eq_true (List.all_eq_true.mp hl s hs)

theorem sleep_signals_ok (h : ℚ) (b w e : String) :
    ∀ s ∈ (analyze_sleep h b w e).mood_signals, okStrength s.2 := by
  intro s hs
  unfold analyze_sleep at hs
  split_ifs at hs <;> (dsimp only at hs; exact ok_of_list _ (by decide) s hs)

theorem weather_signals_ok (ws : String) (t : Option ℚ) (e : String) :
    ∀ s ∈ (analyze_weather ws t e).mood_signals, okStrength s.2 := by
  intro s hs
  simp only [analyze_weather] at hs
  split_ifs at hs <;> exact ok_of_list _ (by decide) s hs

theorem music_signals_ok (v en : ℚ) (tp : ℤ) (d : ℚ) :
    ∀ s ∈ (analyze_music v en tp d).mood_signals, okStrength s.2 := by
  intro s hs
  simp only [analyze_music] at hs
  split_ifs at hs <;> (dsimp only at hs; exact ok_of_list _ (by decide) s hs)

theorem time_signals_ok (h wd : ℕ) (e : String) :
    ∀ s ∈ (analyze_time h wd e).mood_signals, okStrength s.2 := by
  intro s hs
  simp only [analyze_time] at hs
  split_ifs at hs <;> exact ok_of_list _ (by decide) s hs

theorem classifyToday_signals_ok (str : String) :
    ∀ s ∈ (classifyToday str).1, okStrength s.2 := by
  intro s hs
  unfold classifyToday at hs
  split_ifs at hs <;> (dsimp only at hs; exact ok_of_list _ (by decide) s hs)

theorem processEvent_signals_ok (now : PyDateTime) (ev : CalendarEvent)
    (st : AgendaState) (hst : ∀ s ∈ st.mood_signals, okStrength s.2) :
    ∀ s ∈ (processEvent now st ev).mood_signals, okStrength s.2 := by
  intro s hs
  unfold processEvent at hs
  rcases hp : parseStart ev.start with _ | ⟨d, t⟩
  · rw [hp] at hs
    exact hst s hs
  · rw [hp] at hs
    simp only at hs
    split_ifs at hs <;>
      first
        | exact hst s hs
        | (rcases List.mem_append.mp hs with h1 | h2
           · exact hst s h1
           · first
               | exact ok_of_list _ (by decide) s h2
               | exact classifyToday_signals_ok _ s h2)

theorem agenda_signals_ok (events : List CalendarEvent) (ch : ℕ) (now : PyDateTime) :
    ∀ s ∈ (analyze_events events ch now).mood_signals, okStrength s.2 := by
  have key : ∀ (l : List CalendarEvent) (st : AgendaState),
      (∀ s ∈ st.mood_signals, okStrength s.2) →
      ∀ s ∈ (l.foldl (processEvent now) st).mood_signals, okStrength s.2 := by
    intro l
    induction l with
    | nil => intro st hst; exact hst
    | cons ev t ih =>
      intro st hst
      exact ih (processEvent now st ev) (processEvent_signals_ok now ev st hst)
  intro s hs
  exact key events ⟨[], [], [], 0⟩ (by intro s' hs'; cases hs') s hs

theorem all_signals_ok (ce : List CalendarEvent) (sh : ℚ) (bt wt we : String)
    (tmp : Option ℚ) (va en : ℚ) (tp : ℤ) (da : ℚ) (ct : PyDateTime) (ex : String)
    (now : PyDateTime) :
    ∀ s ∈ all_signals ce sh bt wt we tmp va en tp da ct ex now, okStrength s.2.1 := by
  intro s hs
  simp only [all_signals, List.mem_append, List.mem_map] at hs
  rcases hs with ((((⟨a, ha, rfl⟩ | ⟨a, ha, rfl⟩) | ⟨a, ha, rfl⟩) | ⟨a, ha, rfl⟩) | ⟨a, ha, rfl⟩)
  · exact agenda_signals_ok ce ct.hour now a ha
  · exact sleep_signals_ok sh bt wt ex a ha
  · exact weather_signals_ok we tmp ex a ha
  · exact music_signals_ok va en tp da a ha
  · exact time_signals_ok ct.hour ct.weekday ex a ha

theorem all_signals_contrib_nonneg (ce : List CalendarEvent) (sh : ℚ) (bt wt we : String)
    (tmp : Option ℚ) (va en : ℚ) (tp : ℤ) (da : ℚ) (ct : PyDateTime) (ex : String)
    (now : PyDateTime) :
    ∀ s ∈ all_signals ce sh bt wt we tmp va en tp da ct ex now,
      0 ≤ contribution source_weights s := by
  intro s hs
  unfold contribution
  exact mul_nonneg
    (okStrength_nonneg s.2.1 (all_signals_ok ce sh bt wt we tmp va en tp da ct ex now s hs))
    (lookupD_source_weights_nonneg s.2.2)

theorem score_moods_nonneg (signals : List (MoodCategory × SignalStrength × String))
    (w : List (String × ℚ)) (veto : Bool) (c : MoodCategory) :
    0 ≤ score_moods signals w veto c := by
  unfold score_moods
  by_cases hv : veto = true
  · rw [hv]
    simp only [if_true]
    by_cases hc : c = MoodCategory.tired
    · subst hc
      rw [Function.update_same]
      have h1 : (0:ℚ) ≤ normalizeScores (accumulateFrom w (fun _ => 0) signals) .tired :=
        normalizeScores_nonneg _ _
      have h2 := le_maxScore (normalizeScores (accumulateFrom w (fun _ => 0) signals)) .tired
      nlinarith
    · rw [Function.update_noteq hc]
      exact normalizeScores_nonneg _ _
  · rw [Bool.not_eq_true] at hv
    rw [hv]
    simp only [Bool.false_eq_true, if_false]
    exact normalizeScores_nonneg _ _

/-! ## C8: score-map shape invariant -/

/-- C8.  For every input, the `mood_scores` map of the report returned by
`MoodDataAnalyzer.analyze` has exactly the 9 canonical category keys, in
enum order, and every value is nonnegative. -/
theorem mood_scores_shape (ce : List CalendarEvent) (sh : ℚ) (bt wt we : String)
    (tmp : Option ℚ) (va en : ℚ) (tp : ℤ) (da : ℚ) (ct : PyDateTime) (ex : String)
    (now : PyDateTime) :
    ((analyze ce sh bt wt we tmp va en tp da ct ex now).mood_scores.map Prod.fst =
      ["creative", "hard_work", "confident", "chill", "energetic", "melancholy",
       "intense", "pumped", "tired"]) ∧
    ((analyze ce sh bt wt we tmp va en tp da ct ex now).mood_scores.all
      fun p => decide (0 ≤ p.2)) = true := by
  constructor
  · rfl
  · rw [List.all_eq_true]
    intro p hp
    simp only [analyze, List.mem_map] at hp
    obtain ⟨c, _, rfl⟩ := hp
    exact decide_eq_true (score_moods_nonneg _ _ _ c)

/-! ## C3: the weight table does not vary with the execution window -/

/-- C3 counterexample.  The claim asserts that there exist two execution
windows whose selected weight tables differ; in fact the aggregator builds
the same `source_weights` table for `MATIN`, `APRES_MIDI` and `SOIREE`
(shown here at a concrete input, with all other arguments held fixed). -/
theorem weight_tables_equal_across_windows :
    (analyze [] 8 "" "" "" none 0 0 0 0 ⟨738887, ⟨9, 0, 0⟩⟩ "MATIN"
        ⟨738887, ⟨9, 0, 0⟩⟩).source_weights =
      (analyze [] 8 "" "" "" none 0 0 0 0 ⟨738887, ⟨9, 0, 0⟩⟩ "APRES_MIDI"
        ⟨738887, ⟨9, 0, 0⟩⟩).source_weights ∧
    (analyze [] 8 "" "" "" none 0 0 0 0 ⟨738887, ⟨9, 0, 0⟩⟩ "MATIN"
        ⟨738887, ⟨9, 0, 0⟩⟩).source_weights =
      (analyze [] 8 "" "" "" none 0 0 0 0 ⟨738887, ⟨9, 0, 0⟩⟩ "SOIREE"
        ⟨738887, ⟨9, 0, 0⟩⟩).source_weights :=
  ⟨rfl, rfl⟩

/-- C3 amended.  The aggregator uses a single fixed weight table —
agenda 0.35, sleep 0.35, weather 0.15, music 0.10, time 0.05 — for every
execution window (the table echoed in the report never depends on the
window label), and that table sums to 1.0. -/
theorem source_weights_fixed (ce : List CalendarEvent) (sh : ℚ) (bt wt we : String)
    (tmp : Option ℚ) (va en : ℚ) (tp : ℤ) (da : ℚ) (ct : PyDateTime) (ex : String)
    (now : PyDateTime) :
    (analyze ce sh bt wt we tmp va en tp da ct ex now).source_weights = source_weights ∧
    (source_weights.map Prod.snd).sum = 1 :=
  ⟨rfl, by norm_num [source_weights]⟩

/-! ## C6: invalid execution-window labels are not rejected -/

/-- C6 counterexample.  With the out-of-vocabulary window label
`"CREPUSCULE"`, `MoodDataAnalyzer.analyze` does not return or raise any
typed error: it silently proceeds with the fixed default weight table and
produces a complete report. -/
theorem invalid_window_not_rejected :
    (analyze [] 8 "" "" "" none 0 0 0 0 ⟨738887, ⟨9, 0, 0⟩⟩ "CREPUSCULE"
        ⟨738887, ⟨9, 0, 0⟩⟩).execution_type = "CREPUSCULE" ∧
    (analyze [] 8 "" "" "" none 0 0 0 0 ⟨738887, ⟨9, 0, 0⟩⟩ "CREPUSCULE"
        ⟨738887, ⟨9, 0, 0⟩⟩).source_weights = source_weights ∧
    (analyze [] 8 "" "" "" none 0 0 0 0 ⟨738887, ⟨9, 0, 0⟩⟩ "CREPUSCULE"
        ⟨738887, ⟨9, 0, 0⟩⟩).mood_scores.map Prod.fst =
      ["creative", "hard_work", "confident", "chill", "energetic", "melancholy",
       "intense", "pumped", "tired"] :=
  ⟨rfl, rfl, rfl⟩

/-- C6 amended.  `MoodDataAnalyzer.analyze` performs no validation of the
execution-window label: every label, valid or not, is accepted, echoed
verbatim in the report, and scored with the single fixed weight table. -/
theorem analyze_accepts_any_window (ce : List CalendarEvent) (sh : ℚ)
    (bt wt we : String) (tmp : Option ℚ) (va en : ℚ) (tp : ℤ) (da : ℚ)
    (ct : PyDateTime) (ex : String) (now : PyDateTime) :
    (analyze ce sh bt wt we tmp va en tp da ct ex now).execution_type = ex ∧
    (analyze ce sh bt wt we tmp va en tp da ct ex now).source_weights = source_weights ∧
    (analyze ce sh bt wt we tmp va en tp da ct ex now).mood_scores.length = 9 :=
  ⟨rfl, rfl, rfl⟩

/-! ## C9: totality; malformed calendar entries are skipped -/

theorem processEvent_skip (now : PyDateTime) (bad : CalendarEvent)
    (h : parseStart bad.start = none) (st : AgendaState) :
    processEvent now st bad = st := by
  simp only [processEvent, h]

/-- C9.  The engine is total over well-typed inputs: an event whose start
field is missing or unparseable is skipped by the agenda loop without any
effect (no signals, no pressure, no listing), `analyze` returns the same
complete report with or without such an entry, and every call — including
one with no events, zero sleep, absent temperature and arbitrary weather
text — produces a report whose score map carries all 9 categories. -/
theorem analyze_total_malformed_skipped (now : PyDateTime) (ch : ℕ)
    (l₁ l₂ : List CalendarEvent) (bad : CalendarEvent)
    (h : parseStart bad.start = none) :
    (∀ st, processEvent now st bad = st) ∧
    analyze_events (l₁ ++ bad :: l₂) ch now = analyze_events (l₁ ++ l₂) ch now ∧
    ∀ (sh : ℚ) (bt wt we : String) (tmp : Option ℚ) (va en : ℚ) (tp : ℤ) (da : ℚ)
      (ct : PyDateTime) (ex : String),
      analyze (l₁ ++ bad :: l₂) sh bt wt we tmp va en tp da ct ex now =
        analyze (l₁ ++ l₂) sh bt wt we tmp va en tp da ct ex now ∧
      (analyze (l₁ ++ bad :: l₂) sh bt wt we tmp va en tp da ct ex now).mood_scores.map
          Prod.fst =
        ["creative", "hard_work", "confident", "chill", "energetic", "melancholy",
         "intense", "pumped", "tired"] := by
  have hev : ∀ ch' : ℕ, analyze_events (l₁ ++ bad :: l₂) ch' now =
      analyze_events (l₁ ++ l₂) ch' now := by
    intro ch'
    simp only [analyze_events, List.foldl_append, List.foldl_cons,
      processEvent_skip now bad h]
  refine ⟨processEvent_skip now bad h, hev ch, ?_⟩
  intro sh bt wt we tmp va en tp da ct ex
  constructor
  · simp only [analyze, all_signals, hev]
  · rfl

/-! ## C2: the agenda analyzer reads the ambient wall clock -/

/-- C2.  `AgendaAnalyzer.analyze_events` calls `datetime.now()` (source
line 149) and ignores the `current_hour` derived from the caller's
`current_time`, so `MoodDataAnalyzer.analyze` is not a function of its
declared arguments: two invocations with identical declared arguments
(including the same explicit `current_time`) differ when the ambient clock
differs.  Here the same exam event is pending today at the first call
(pressure 4) and two days in the past at the second (pressure 0). -/
theorem analyze_depends_on_ambient_clock :
    (analyze [⟨"Examen Final", ⟨some "2024-01-02T18:00:00", none⟩⟩] 8 "23:00" "07:00"
        "" none 0 0 0 0 ⟨738887, ⟨9, 0, 0⟩⟩ "MATIN"
        ⟨738887, ⟨9, 0, 0⟩⟩).agenda.total_pressure = 4 ∧
    (analyze [⟨"Examen Final", ⟨some "2024-01-02T18:00:00", none⟩⟩] 8 "23:00" "07:00"
        "" none 0 0 0 0 ⟨738887, ⟨9, 0, 0⟩⟩ "MATIN"
        ⟨738889, ⟨9, 0, 0⟩⟩).agenda.total_pressure = 0 ∧
    analyze [⟨"Examen Final", ⟨some "2024-01-02T18:00:00", none⟩⟩] 8 "23:00" "07:00"
        "" none 0 0 0 0 ⟨738887, ⟨9, 0, 0⟩⟩ "MATIN" ⟨738887, ⟨9, 0, 0⟩⟩ ≠
      analyze [⟨"Examen Final", ⟨some "2024-01-02T18:00:00", none⟩⟩] 8 "23:00" "07:00"
        "" none 0 0 0 0 ⟨738887, ⟨9, 0, 0⟩⟩ "MATIN" ⟨738889, ⟨9, 0, 0⟩⟩ := by
  have e1 : (analyze [⟨"Examen Final", ⟨some "2024-01-02T18:00:00", none⟩⟩] 8 "23:00"
      "07:00" "" none 0 0 0 0 ⟨738887, ⟨9, 0, 0⟩⟩ "MATIN"
      ⟨738887, ⟨9, 0, 0⟩⟩).agenda.total_pressure = 4 := by
    with_unfolding_all decide
  have e2 : (analyze [⟨"Examen Final", ⟨some "2024-01-02T18:00:00", none⟩⟩] 8 "23:00"
      "07:00" "" none 0 0 0 0 ⟨738887, ⟨9, 0, 0⟩⟩ "MATIN"
      ⟨738889, ⟨9, 0, 0⟩⟩).agenda.total_pressure = 0 := by
    with_unfolding_all decide
  refine ⟨e1, e2, fun hcontra => ?_⟩
  have h := congrArg (fun r => r.agenda.total_pressure) hcontra
  simp only at h
  rw [e1, e2] at h
  norm_num at h

/-! ## C5: agenda precedence and pressure weights -/

/-- First-match rule lookup: scan an ordered table of
`(keyword list, (signals, pressure))` rows and return the first row whose
keywords match, falling back to the default.  Written from the spec's
words ("strict precedence", "first matching category wins"). -/
def firstMatch (summary : String) :
    List (List String × List (MoodCategory × SignalStrength) × ℚ) →
    List (MoodCategory × SignalStrength) × ℚ →
    List (MoodCategory × SignalStrength) × ℚ
  | [], d => d
  | (kws, v) :: rest, d => if matchesAny summary kws then v else firstMatch summary rest d

/-- The spec's ordered classification table for a still-upcoming event of
today (§4.1, step 2, last bullet): category precedence with the associated
signals and per-category pressure weights. -/
def specAgendaRules : List (List String × List (MoodCategory × SignalStrength) × ℚ) :=
  [(SPORT_INTENSE, ([(MoodCategory.pumped, SignalStrength.very_strong)], 2)),
   (SPORT_MODERATE, ([(MoodCategory.energetic, SignalStrength.strong)], 1)),
   (WORK_CREATIVE, ([(MoodCategory.creative, SignalStrength.strong)], 1)),
   (WORK_FOCUS_HIGH, ([(MoodCategory.intense, SignalStrength.very_strong),
                       (MoodCategory.hard_work, SignalStrength.strong)], 4)),
   (WORK_FOCUS_NORMAL, ([(MoodCategory.hard_work, SignalStrength.moderate)], 1/2)),
   (SOCIAL_ACTIVE, ([(MoodCategory.confident, SignalStrength.strong),
                     (MoodCategory.energetic, SignalStrength.moderate)], 1)),
   (SOCIAL_CALM, ([(MoodCategory.chill, SignalStrength.strong)], 1/2))]

/-- C5.  A parsed event dated today that is still upcoming (its time, when
present, is after the ambient clock's time) is classified by the
first-match precedence table: the loop appends exactly the table's
signals, adds exactly the table's pressure weight, and records the event;
and the source's classification chain coincides with first-match lookup in
the spec's ordered rule table (default: confident moderate, pressure 0.5). -/
theorem agenda_today_precedence (now : PyDateTime) (st : AgendaState)
    (ev : CalendarEvent) (d : ℤ) (et : Option TimeOfDay)
    (hp : parseStart ev.start = some (d, et))
    (hd : d = now.date)
    (ht : ∀ t, et = some t → timeLE t now.time = false) :
    processEvent now st ev = { st with
        mood_signals := st.mood_signals ++ (classifyToday (pyLower ev.summary)).1,
        total_pressure := st.total_pressure + (classifyToday (pyLower ev.summary)).2,
        today_events := st.today_events ++ [(pyLower ev.summary).take 30] } ∧
    (∀ s : String, classifyToday s =
      firstMatch s specAgendaRules
        ([(MoodCategory.confident, SignalStrength.moderate)], 1/2)) := by
  constructor
  · rcases et with _ | t
    · subst hd
      simp only [processEvent, hp, sub_self]
      norm_num
    · have htt : timeLE t now.time = false := ht t rfl
      subst hd
      simp only [processEvent, hp, sub_self, htt]
      norm_num
  · intro s
    rfl

set_option maxRecDepth 8000 in
/-- C5 witness: a concrete intense-sport event of today, still pending at
09:00, is classified with signal (pumped, very_strong) and pressure 2.0. -/
theorem agenda_today_precedence_witness :
    processEvent ⟨738887, ⟨9, 0, 0⟩⟩ ⟨[], [], [], 0⟩
        ⟨"Crossfit", ⟨none, some "2024-01-02"⟩⟩ =
      ⟨["crossfit"], [], [(MoodCategory.pumped, SignalStrength.very_strong)], 2⟩ := by
  have h := agenda_today_precedence ⟨738887, ⟨9, 0, 0⟩⟩ ⟨[], [], [], 0⟩
      ⟨"Crossfit", ⟨none, some "2024-01-02"⟩⟩ 738887 none (by decide) rfl
      (fun t ht => by cases ht)
  rw [h.1]
  with_unfolding_all decide

/-! ## C10: all emitted signals are nonnegative; the shift branch is dead -/

theorem le_foldl_min (l : List ℚ) : ∀ (a x : ℚ), a ≤ x → (∀ y ∈ l, a ≤ y) →
    a ≤ l.foldl min x := by
  induction l with
  | nil => intro a x hx _; exact hx
  | cons z t ih =>
    intro a x hx hl
    exact ih a (min x z) (le_min hx (hl z (List.mem_cons_self z t)))
      (fun y hy => hl y (List.mem_cons_of_mem z hy))

theorem minScore_nonneg (m : MoodCategory → ℚ) (hm : ∀ c, 0 ≤ m c) :
    0 ≤ minScore m := by
  have h : minScore m = ((allMoods.map m).tail).foldl min (m .creative) := rfl
  rw [h]
  refine le_foldl_min _ 0 _ (hm .creative) ?_
  intro y hy
  simp only [allMoods, List.map_cons, List.map_nil, List.tail_cons, List.mem_cons,
    List.not_mem_nil, or_false] at hy
  rcases hy with rfl | rfl | rfl | rfl | rfl | rfl | rfl | rfl <;> exact hm _

/-- C10.  Every signal any analyzer emits has strength moderate, strong or
very_strong (weak and very_weak are never produced), so every
pre-normalization per-category accumulator is nonnegative, the minimum
over the nine categories is never negative, and the normalization shift of
`_score_moods` is the identity on every reachable score map. -/
theorem signals_nonneg_shift_identity (ce : List CalendarEvent) (sh : ℚ)
    (bt wt we : String) (tmp : Option ℚ) (va en : ℚ) (tp : ℤ) (da : ℚ)
    (ct : PyDateTime) (ex : String) (now : PyDateTime) :
    (∀ sig ∈ all_signals ce sh bt wt we tmp va en tp da ct ex now, okStrength sig.2.1) ∧
    (∀ c, 0 ≤ accumulateFrom source_weights (fun _ => 0)
        (all_signals ce sh bt wt we tmp va en tp da ct ex now) c) ∧
    0 ≤ minScore (accumulateFrom source_weights (fun _ => 0)
        (all_signals ce sh bt wt we tmp va en tp da ct ex now)) ∧
    normalizeScores (accumulateFrom source_weights (fun _ => 0)
        (all_signals ce sh bt wt we tmp va en tp da ct ex now)) =
      accumulateFrom source_weights (fun _ => 0)
        (all_signals ce sh bt wt we tmp va en tp da ct ex now) := by
  have hnn : ∀ c, 0 ≤ accumulateFrom source_weights (fun _ => 0)
      (all_signals ce sh bt wt we tmp va en tp da ct ex now) c :=
    fun c => accumulateFrom_nonneg source_weights _
      (all_signals_contrib_nonneg ce sh bt wt we tmp va en tp da ct ex now)
      _ (fun _ => le_refl 0) c
  have hmin := minScore_nonneg _ hnn
  refine ⟨all_signals_ok ce sh bt wt we tmp va en tp da ct ex now, hnn, hmin, ?_⟩
  unfold normalizeScores
  rw [if_neg (not_lt.mpr hmin)]

/-- C10 witness: at a concrete input the sleep analyzer's chill signal is
among the merged signals with an allowed strength, and the normalization
shift is the identity. -/
theorem signals_nonneg_shift_identity_witness :
    okStrength ((MoodCategory.chill, SignalStrength.moderate, "sleep") :
        MoodCategory × SignalStrength × String).2.1 ∧
    0 ≤ minScore (accumulateFrom source_weights (fun _ => 0)
        (all_signals [] 0 "" "" "" none 0 0 0 0 ⟨738887, ⟨9, 0, 0⟩⟩ "MATIN"
          ⟨738887, ⟨9, 0, 0⟩⟩)) ∧
    normalizeScores (accumulateFrom source_weights (fun _ => 0)
        (all_signals [] 0 "" "" "" none 0 0 0 0 ⟨738887, ⟨9, 0, 0⟩⟩ "MATIN"
          ⟨738887, ⟨9, 0, 0⟩⟩)) =
      accumulateFrom source_weights (fun _ => 0)
        (all_signals [] 0 "" "" "" none 0 0 0 0 ⟨738887, ⟨9, 0, 0⟩⟩ "MATIN"
          ⟨738887, ⟨9, 0, 0⟩⟩) := by
  have h := signals_nonneg_shift_identity [] 0 "" "" "" none 0 0 0 0
    ⟨738887, ⟨9, 0, 0⟩⟩ "MATIN" ⟨738887, ⟨9, 0, 0⟩⟩
  exact ⟨h.1 _ (by decide), h.2.2.1, h.2.2.2⟩

/-- C9 witness: one event whose start string parses as no date is skipped
outright, so the agenda report equals the empty-calendar report. -/
theorem analyze_total_malformed_skipped_witness :
    analyze_events [⟨"examen", ⟨some "not-a-date", none⟩⟩] 9 ⟨738887, ⟨9, 0, 0⟩⟩ =
      analyze_events [] 9 ⟨738887, ⟨9, 0, 0⟩⟩ := by
  have h := analyze_total_malformed_skipped ⟨738887, ⟨9, 0, 0⟩⟩ 9 [] []
    ⟨"examen", ⟨some "not-a-date", none⟩⟩ (by decide)
  exact h.2.1

/-! ## C1: veto dominance -/

theorem score_moods_veto_true (signals : List (MoodCategory × SignalStrength × String))
    (w : List (String × ℚ)) :
    score_moods signals w true = Function.update
      (normalizeScores (accumulateFrom w (fun _ => 0) signals)) .tired
      (maxScore (normalizeScores (accumulateFrom w (fun _ => 0) signals)) * (3/2)) := rfl

/-- C1 counterexample.  The claim quantifies over every `sleep_hours < 6.0`
and asserts `tired` ends strictly on top; at `sleep_hours = 0` the sleep
analyzer reports `NO_DATA` with `veto = false` (not `CRITICAL_VETO`), and
with otherwise neutral inputs the `tired` score (0) is strictly below the
`chill` score (11/4), refuting the claim as stated. -/
theorem veto_dominance_fails_at_zero_sleep :
    (0 : ℚ) < 6 ∧
    (analyze_sleep 0 "" "" "MATIN").veto = false ∧
    lookupD (analyze [] 0 "" "" "" none 0 0 0 0 ⟨738887, ⟨9, 0, 0⟩⟩ "MATIN"
        ⟨738887, ⟨9, 0, 0⟩⟩).mood_scores "tired" 0 <
      lookupD (analyze [] 0 "" "" "" none 0 0 0 0 ⟨738887, ⟨9, 0, 0⟩⟩ "MATIN"
        ⟨738887, ⟨9, 0, 0⟩⟩).mood_scores "chill" 0 := by
  refine ⟨by norm_num, by with_unfolding_all decide, ?_⟩
  with_unfolding_all decide

/-- C1 amended.  For every input with `0 < sleep_hours < 6.0` (the
CRITICAL_VETO band, where `analyze_sleep` sets `veto = true`), the
`mood_scores` map returned by `MoodDataAnalyzer.analyze` gives `tired` a
strictly greater score than each of the other 8 categories, regardless of
the calendar, weather, music and time inputs. -/
theorem veto_dominance (ce : List CalendarEvent) (sh : ℚ) (bt wt we : String)
    (tmp : Option ℚ) (va en : ℚ) (tp : ℤ) (da : ℚ) (ct : PyDateTime) (ex : String)
    (now : PyDateTime) (h0 : 0 < sh) (h6 : sh < 6) :
    ∀ c : MoodCategory, c ≠ .tired →
      lookupD (analyze ce sh bt wt we tmp va en tp da ct ex now).mood_scores c.value 0 <
        lookupD (analyze ce sh bt wt we tmp va en tp da ct ex now).mood_scores "tired" 0 := by
  intro c hc
  have hveto : (analyze_sleep sh bt wt ex).veto = true := by
    unfold analyze_sleep SLEEP_CRITICAL
    rw [if_neg (by linarith : ¬ sh ≤ 0), if_pos (by linarith : sh < (6 : ℚ))]
  have hsig : (MoodCategory.tired, SignalStrength.very_strong) ∈
      (analyze_sleep sh bt wt ex).mood_signals := by
    unfold analyze_sleep SLEEP_CRITICAL
    rw [if_neg (by linarith : ¬ sh ≤ 0), if_pos (by linarith : sh < (6 : ℚ))]
    exact List.mem_singleton.mpr rfl
  have hms0 : (analyze ce sh bt wt we tmp va en tp da ct ex now).mood_scores =
      allMoods.map (fun mm => (mm.value,
        score_moods (all_signals ce sh bt wt we tmp va en tp da ct ex now)
          source_weights (analyze_sleep sh bt wt ex).veto mm)) := rfl
  rw [hms0, hveto]
  rw [show ("tired" : String) = MoodCategory.tired.value from rfl]
  rw [lookup_mood_scores, lookup_mood_scores]
  rw [score_moods_veto_true, Function.update_same, Function.update_noteq hc]
  have hcontrib := all_signals_contrib_nonneg ce sh bt wt we tmp va en tp da ct ex now
  have hmem : (MoodCategory.tired, SignalStrength.very_strong, "sleep") ∈
      all_signals ce sh bt wt we tmp va en tp da ct ex now := by
    unfold all_signals
    refine List.mem_append.mpr (Or.inl ?_)
    refine List.mem_append.mpr (Or.inl ?_)
    refine List.mem_append.mpr (Or.inl ?_)
    refine List.mem_append.mpr (Or.inr ?_)
    exact List.mem_map.mpr ⟨(.tired, .very_strong), hsig, rfl⟩
  have hle := contribution_le_accumulateFrom source_weights
    (all_signals ce sh bt wt we tmp va en tp da ct ex now)
    (MoodCategory.tired, SignalStrength.very_strong, "sleep")
    (fun _ => 0) hmem hcontrib (fun _ => le_refl 0)
  have hc21 : contribution source_weights
      (MoodCategory.tired, SignalStrength.very_strong, "sleep") = 21/2 := by
    with_unfolding_all decide
  rw [hc21] at hle
  have hge := normalizeScores_ge
    (accumulateFrom source_weights (fun _ => 0)
      (all_signals ce sh bt wt we tmp va en tp da ct ex now)) MoodCategory.tired
  have hmaxT := le_maxScore
    (normalizeScores (accumulateFrom source_weights (fun _ => 0)
      (all_signals ce sh bt wt we tmp va en tp da ct ex now))) MoodCategory.tired
  have hmaxC := le_maxScore
    (normalizeScores (accumulateFrom source_weights (fun _ => 0)
      (all_signals ce sh bt wt we tmp va en tp da ct ex now))) c
  linarith

/-- C1 witness: at sleep 4h with otherwise neutral inputs, `tired` strictly
exceeds `chill` in the final score map. -/
theorem veto_dominance_witness :
    lookupD (analyze [] 4 "" "" "" none 0 0 0 0 ⟨738887, ⟨9, 0, 0⟩⟩ "MATIN"
        ⟨738887, ⟨9, 0, 0⟩⟩).mood_scores "chill" 0 <
      lookupD (analyze [] 4 "" "" "" none 0 0 0 0 ⟨738887, ⟨9, 0, 0⟩⟩ "MATIN"
        ⟨738887, ⟨9, 0, 0⟩⟩).mood_scores "tired" 0 := by
  have h := veto_dominance [] 4 "" "" "" none 0 0 0 0 ⟨738887, ⟨9, 0, 0⟩⟩ "MATIN"
    ⟨738887, ⟨9, 0, 0⟩⟩ (by norm_num) (by norm_num) MoodCategory.chill (by decide)
  exact h
